import Mathlib

/-!
# Verification of the backend-container request router and session bridges

A shallow embedding of the request-routing, reverse-proxy, upstream-process
supervision, log-relay and session-bridge logic of the `backend-container`
sources (`server.ts` with its `sockets`/`reverseProxy` modules, `app.ts`
with its `jupyter` module, and `socketio_to_pty.ts`), together with theorems
settling the specification claims about them.
-/

set_option maxRecDepth 4096

/-- JS `s.indexOf(pre) === 0`: `s` starts with the literal `pre`. -/
def jsStartsWith (pre s : String) : Bool :=
  pre.data.isPrefixOf s.data

namespace ReverseProxy

/-- The regex character class `[0-9]` used by `reverseProxy.ts`. -/
def isDigitChar (c : Char) : Bool :=
  Nat.ble 48 c.toNat && Nat.ble c.toNat 57

/-- Greedy `[0-9]+`-style scan: the maximal digit run at the head of the
character list, together with the remainder. -/
def spanDigits : List Char → List Char × List Char
  | [] => ([], [])
  | c :: cs =>
    if isDigitChar c then
      let (ds, r) := spanDigits cs
      (c :: ds, r)
    else ([], c :: cs)

/-- One attempt of the regex `\/_proxy\/([0-9]+)($|\/)` anchored at the head
of the character list. On success returns the captured digit run and the
characters after the whole matched text (the match consumes the trailing
slash when one is present, exactly as the `($|\/)` group does). -/
def proxyMatchAt : List Char → Option (List Char × List Char)
  | '/' :: '_' :: 'p' :: 'r' :: 'o' :: 'x' :: 'y' :: '/' :: tail =>
    match spanDigits tail with
    | ([], _) => none
    | (d :: ds, []) => some (d :: ds, [])
    | (d :: ds, '/' :: r) => some (d :: ds, r)
    | (_ :: _, _ :: _) => none
  | _ => none

/-- Leftmost match of the regex over the whole character list, as
`RegExp.exec` finds it: returns the text before the match, the captured
digit run, and the text after the matched portion. -/
def findProxyMatch : List Char → Option (List Char × List Char × List Char)
  | [] => none
  | c :: cs =>
    match proxyMatchAt (c :: cs) with
    | some (ds, rest) => some ([], ds, rest)
    | none =>
      match findProxyMatch cs with
      | some (b, ds, rest) => some (c :: b, ds, rest)
      | none => none

/-- JS `Number` applied to the captured digit string. -/
def digitsVal (ds : List Char) : Nat :=
  ds.foldl (fun a c => a * 10 + (c.toNat - 48)) 0

/-- `reverseProxy.getRequestPort`: if the path matches the `/_proxy/<digits>`
pattern, the digits as a number; otherwise 0 (also for the empty, falsy
path). -/
def getRequestPort (path : String) : Nat :=
  if path.data.isEmpty then 0
  else
    match findProxyMatch path.data with
    | some (_, ds, _) => digitsVal ds
    | none => 0

/-- The `request.url.replace(regex, '')` rewrite performed by
`reverseProxy.handleRequest`: the first regex match is deleted from the
URL. -/
def rewriteUrl (u : String) : String :=
  match findProxyMatch u.data with
  | some (b, _, rest) => String.mk (b ++ rest)
  | none => u

/-- The proxy target built by `reverseProxy.handleRequest`:
`'http://localhost:' + port`. -/
def forwardTarget (port : Nat) : String :=
  "http://localhost:" ++ toString port

/-- Modelled from the spec: the final URL the external `http-proxy` library
(outside this repository) requests, namely the target `http://localhost:<port>`
followed by the rewritten request path. The library itself is not part of
the sources; the spec states the request is forwarded to the target with
the `/_proxy/<port>` marker stripped. -/
def forwardedUrl (u : String) (port : Nat) : String :=
  forwardTarget port ++ "/" ++ rewriteUrl u

end ReverseProxy

namespace Sockets

/-- `sockets.isSocketIoPath`: true iff the path is handled by the socket.io
multiplex layer (`path.indexOf('/socket.io/') === 0`). -/
def isSocketIoPath (path : String) : Bool :=
  jsStartsWith "/socket.io/" path

end Sockets

namespace SocketIoToPty

/-- `SocketIoToPty.isPathProxied`: the request path starts with the bridge
path followed by a slash (`path.indexOf(this.path + '/') === 0`). -/
def isPathProxied (bridgePath path : String) : Bool :=
  jsStartsWith (bridgePath ++ "/") path

end SocketIoToPty

namespace Server

/-- The exclusive outcome the router produces for a non-upgrade request. -/
inductive Outcome where
  /-- A registered session bridge claimed the path; the handler returns
  without touching the response. -/
  | bridge
  /-- The socket.io multiplex prefix; handled by the socket.io layer. -/
  | socketIo
  /-- Forwarded by `reverseProxy.handleRequest` to the given local port with
  the rewritten request URL. -/
  | reverseProxy (port : Nat) (rewrittenUrl : String)
  /-- Handed to `jupyter.handleRequest` (the supervisor proxy). -/
  | jupyter
  /-- `response.statusCode = 404; response.end()`. -/
  | notFound
deriving DecidableEq

/-- `server.handleRequest`: the default handler. Paths under `/api`,
`/nbextensions`, `/files` or `/static` go to the Jupyter supervisor proxy;
everything else receives 404. -/
def handleRequest (requestPath : String) : Outcome :=
  if jsStartsWith "/api" requestPath || jsStartsWith "/nbextensions" requestPath
      || jsStartsWith "/files" requestPath || jsStartsWith "/static" requestPath then
    Outcome.jupyter
  else
    Outcome.notFound

/-- `server.uncheckedRequestHandler`: the routing decision for a non-upgrade
request. `socketIoHandlers` is the list of registered bridge path prefixes,
`localPort` is `request.socket.localPort` (the listening port), and
`urlpath` the parsed request path. -/
def uncheckedRequestHandler (socketIoHandlers : List String) (localPort : Nat)
    (urlpath : String) : Outcome :=
  if socketIoHandlers.any (fun p => SocketIoToPty.isPathProxied p urlpath) then
    Outcome.bridge
  else
    let proxyPort := ReverseProxy.getRequestPort urlpath
    if Sockets.isSocketIoPath urlpath then
      Outcome.socketIo
    else if proxyPort != 0 && proxyPort != localPort then
      Outcome.reverseProxy proxyPort (ReverseProxy.rewriteUrl urlpath)
    else
      handleRequest urlpath

/-- The bridge prefixes registered by `server.run`: exactly `/tty` when the
terminal feature is enabled, nothing otherwise. -/
def configuredBridges (terminal : Bool) : List String :=
  if terminal then ["/tty"] else []

end Server

namespace Jupyter

/-- The state `jupyter.ts` keeps for the managed Jupyter process: the module
variable `jupyterServer` holds either `null` (modelled `none`) or a record
whose port is the only datum the embedding needs (child-process and proxy
handles are opaque OS resources). -/
structure JupyterServer where
  port : Nat
deriving DecidableEq

/-- `let jupyterServer: JupyterServer = null;` — the state before the TCP
readiness probe has succeeded. -/
def initialJupyterServer : Option JupyterServer := none

/-- The child-process `exit` handler registered in `createJupyterServer`:
it sets `jupyterServer = null` whatever the previous state was. -/
def exitHandler (_s : Option JupyterServer) : Option JupyterServer := none

/-- The success continuation of `tcp.waitUntilUsedOnHost`: it publishes the
freshly created server record into `jupyterServer`. -/
def probeSuccess (srv : JupyterServer) (_s : Option JupyterServer) :
    Option JupyterServer := some srv

/-- What `jupyter.handleRequest` does with the response. -/
inductive HandleOutcome where
  /-- `response.statusCode = status` followed by `response.end()` with the
  given (empty) body. -/
  | respond (status : Nat) (body : String)
  /-- `jupyterServer.proxy.web(request, response, null)`. -/
  | forwardToProxy
deriving DecidableEq

/-- `jupyter.handleRequest`: with no live server record, respond 500 with an
empty body; otherwise forward to the proxy. -/
def handleRequest (s : Option JupyterServer) : HandleOutcome :=
  match s with
  | none => HandleOutcome.respond 500 ""
  | some _ => HandleOutcome.forwardToProxy

/-- How a call to `jupyter.close` terminates. -/
inductive CloseResult where
  /-- Normal completion, with the final `jupyterServer` state. -/
  | ok (s : Option JupyterServer)
  /-- An exception escaped `close` itself. -/
  | threw (msg : String)
deriving DecidableEq

/-- `jupyter.close`. The first statement,
`const jupyterProcess = jupyterServer.childProcess;`, dereferences the
module variable before any null check and outside the `try` block, so when
`jupyterServer` is `null` it throws a `TypeError`. When a server record is
present, `jupyterProcess.kill('SIGHUP')` is attempted inside
`try { ... } catch (e) { }` — whether or not the kill throws (`killThrows`),
the failure is swallowed and `jupyterServer = null` is reached. -/
def close (killThrows : Bool) (s : Option JupyterServer) : CloseResult :=
  match s with
  | none => CloseResult.threw "TypeError: Cannot read property childProcess of null"
  | some _ =>
    -- kill('SIGHUP') runs here; any exception is caught and discarded.
    let _ := killThrows
    CloseResult.ok none

/-- The four levels of the bunyan-style logger used by `pipeOutput`. -/
inductive PyLogLevel where
  | error
  | warn
  | info
  | debug
deriving DecidableEq

/-- The JS whitespace characters relevant to `String.prototype.trim` in the
log stream (space, tab, newline, carriage return, form feed, vertical
tab). -/
def jsIsSpace (c : Char) : Bool :=
  c = ' ' || c = '\t' || c = '\n' || c = '\r' || c = '\x0b' || c = '\x0c'

/-- `line.trim().length === 0`: a line is skipped exactly when every one of
its characters is whitespace. -/
def isBlankLine (line : String) : Bool :=
  line.data.all jsIsSpace

/-- JS `String.prototype.split` with a single-character separator: the
fields between occurrences of the separator, including empty fields and the
empty field after a trailing separator (`''.split(sep)` is `['']`). -/
def splitOnChar (sep : Char) : List Char → List (List Char)
  | [] => [[]]
  | c :: cs =>
    if c = sep then [] :: splitOnChar sep cs
    else
      match splitOnChar sep cs with
      | [] => [[c]]
      | p :: ps => (c :: p) :: ps

/-- JS `line.split('|')` (no limit): fields separated by the pipe
character. -/
def splitPipe (line : String) : List String :=
  (splitOnChar '|' line.data).map String.mk

/-- The Python-to-bunyan level translation performed by the `if` chain in
`pipeOutput`: `CRITICAL` and `ERROR` to error, `WARNING` to warn, `INFO` to
info, and everything else (including `DEBUG` and `NOTSET`) to debug. -/
def mapPyLevel (level : String) : PyLogLevel :=
  if level = "CRITICAL" || level = "ERROR" then PyLogLevel.error
  else if level = "WARNING" then PyLogLevel.warn
  else if level = "INFO" then PyLogLevel.info
  else PyLogLevel.debug

/-- The per-line body of `pipeOutput`: blank lines (whitespace only) are
skipped; `line.split('|', 3)` keeps at most the first three fields, so
`parts.length !== 3` holds exactly when the line has fewer than two pipe
characters, in which case the whole line is logged as a warning; otherwise
the second field selects the level and the third field alone is the logged
message. -/
def processLine (line : String) : Option (PyLogLevel × String) :=
  if isBlankLine line then none
  else
    let parts := (splitPipe line).take 3
    if parts.length ≠ 3 then some (PyLogLevel.warn, line)
    else some (mapPyLevel (parts.getD 1 ""), parts.getD 2 "")

/-- The whole `data` handler of `pipeOutput`: the chunk is split on
newlines and each line is processed independently. -/
def processChunk (data : String) : List (PyLogLevel × String) :=
  ((splitOnChar '\n' data.data).map String.mk).filterMap processLine

end Jupyter

namespace Pty

/-- `UNACKED_HIGH_WATER` from `socketio_to_pty.ts`. -/
def UNACKED_HIGH_WATER : Int := 20

/-- `UNACKED_LOW_WATER` from `socketio_to_pty.ts`. -/
def UNACKED_LOW_WATER : Int := 2

/-- The flow-control side effects a `Session` performs on its pty. -/
inductive FlowAction where
  | pause
  | resume
deriving DecidableEq

/-- The mutable per-session counter `unackedCount` (a JS number, modelled
as an integer so that the no-negative-values claim is a statement, not a
typing artifact). -/
structure FlowState where
  unackedCount : Int
deriving DecidableEq

/-- The `pty.onData` handler: `++this.unackedCount`, then pause the pty
when the new count exceeds the high watermark (the chunk is then emitted
to the client with an acknowledgment callback). -/
def onDataChunk (s : FlowState) : FlowState × List FlowAction :=
  let c := s.unackedCount + 1
  (⟨c⟩, if c > UNACKED_HIGH_WATER then [FlowAction.pause] else [])

/-- The acknowledgment callback:
`this.unackedCount = Math.max(0, --this.unackedCount)`, then resume the pty
when the new count is below the low watermark. -/
def onAck (s : FlowState) : FlowState × List FlowAction :=
  let c := max 0 (s.unackedCount - 1)
  (⟨c⟩, if c < UNACKED_LOW_WATER then [FlowAction.resume] else [])

/-- An observable event in a session's flow-control history: a pty output
chunk or a client acknowledgment. -/
inductive FlowEvent where
  | output
  | ack
deriving DecidableEq

/-- One step of the counter state machine. -/
def flowStep (s : FlowState) (e : FlowEvent) : FlowState :=
  match e with
  | FlowEvent.output => (onDataChunk s).1
  | FlowEvent.ack => (onAck s).1

/-- The counter after an arbitrary interleaving of outputs and
acknowledgments, starting from the initial `unackedCount = 0`. -/
def runFlow (es : List FlowEvent) : FlowState :=
  es.foldl flowStep ⟨0⟩

/-- The envelope fields `socketio_to_pty.ts` reads from a parsed client
`data` payload (`PtyMessage`: all fields optional). -/
structure PtyMessage where
  data : Option String
  cols : Option Nat
  rows : Option Nat
deriving DecidableEq

/-- The side effects the client-`data` handler can perform. -/
inductive SessionIo where
  | write (s : String)
  | resize (cols rows : Nat)
  | disconnect
deriving DecidableEq

/-- How one invocation of the socket `data` handler terminates. -/
inductive HandlerResult where
  /-- The handler ran to completion performing the listed effects. -/
  | actions (ios : List SessionIo)
  /-- An exception escaped the handler uncaught. -/
  | thrown (e : String)
deriving DecidableEq

/-- `if (message.data) { this.pty.write(message.data); }` — JS truthiness:
an absent or empty string writes nothing. -/
def writeActions (m : PtyMessage) : List SessionIo :=
  match m.data with
  | some d => if d.isEmpty then [] else [SessionIo.write d]
  | none => []

/-- `if (message.cols && message.rows) { this.pty.resize(...); }` — both
fields present and nonzero (JS truthiness of numbers). -/
def resizeActions (m : PtyMessage) : List SessionIo :=
  match m.cols, m.rows with
  | some c, some r => if c != 0 && r != 0 then [SessionIo.resize c r] else []
  | _, _ => []

/-- The socket `data` handler of a pty `Session`. `parsed` is the outcome
of the platform builtin `JSON.parse(event.data)` (a parsed envelope, or the
`SyntaxError` it throws on malformed input). The handler body contains no
`try`/`catch`, so a parse error propagates out of the handler unchanged;
on success the optional write and resize are performed. -/
def dataHandler (parsed : Except String PtyMessage) : HandlerResult :=
  match parsed with
  | Except.error e => HandlerResult.thrown e
  | Except.ok m => HandlerResult.actions (writeActions m ++ resizeActions m)

end Pty

namespace KernelBridge

/-- The per-client `Session` record of `sockets.ts`; the WebSocket handle
is opaque, only its presence matters. -/
structure Session where
  url : String
  webSocket : Option Unit
deriving DecidableEq

/-- The observable effects of the kernel bridge handlers. -/
inductive SessionIo where
  | sendToUpstream (d : String)
  | logError (m : String)
  | emitToClient (event : String)
deriving DecidableEq

/-- The state update of the `start` handler when `createWebSocket`
succeeds: `session.url = message.url; session.webSocket = createWebSocket(...)`. -/
def startHandler (s : Session) (u : String) : Session :=
  { s with url := u, webSocket := some () }

/-- `closeWebSocket`: close and clear the upstream socket when present;
a no-op otherwise. -/
def closeWebSocket (s : Session) : Session :=
  match s.webSocket with
  | some _ => { s with webSocket := none }
  | none => s

/-- The `stop` handler: just `closeWebSocket(session)`. -/
def stopHandler (s : Session) : Session :=
  closeWebSocket s

/-- The client `data` handler: with an upstream socket present the payload
is sent on (send failures are reported to a logging callback, never
thrown); with none, `Unable to send message; WebSocket is not open` is
logged as an error and the message is dropped. The handler never throws,
hence the `Except.ok` result in every case. -/
def dataHandler (s : Session) (d : String) : Except String (List SessionIo) :=
  match s.webSocket with
  | some _ => Except.ok [SessionIo.sendToUpstream d]
  | none => Except.ok [SessionIo.logError "Unable to send message; WebSocket is not open"]

end KernelBridge

namespace ReverseProxy

theorem spanDigits_digits_append (ds rest : List Char)
    (h : ∀ c ∈ ds, isDigitChar c = true) :
    spanDigits (ds ++ '/' :: rest) = (ds, '/' :: rest) := by
  induction ds with
  | nil => simp [spanDigits, isDigitChar]
  | cons d ds ih =>
    have hd : isDigitChar d = true := h d (List.mem_cons_self d ds)
    have hrec := ih (fun c hc => h c (List.mem_cons_of_mem d hc))
    simp [spanDigits, hd, hrec]

theorem findProxyMatch_head (ds rest : List Char) (h1 : ds ≠ [])
    (h2 : ∀ c ∈ ds, isDigitChar c = true) :
    findProxyMatch
      ('/' :: '_' :: 'p' :: 'r' :: 'o' :: 'x' :: 'y' :: '/' :: (ds ++ '/' :: rest)) =
      some ([], ds, rest) := by
  cases ds with
  | nil => exact absurd rfl h1
  | cons d ds =>
    have hspan : spanDigits (d :: (ds ++ '/' :: rest)) = (d :: ds, '/' :: rest) := by
      simpa using spanDigits_digits_append (d :: ds) rest h2
    simp [findProxyMatch, proxyMatchAt, hspan]

theorem proxy_path_data (ds : List Char) (rest : String) :
    ("/_proxy/" ++ String.mk ds ++ "/" ++ rest).data =
      '/' :: '_' :: 'p' :: 'r' :: 'o' :: 'x' :: 'y' :: '/' :: (ds ++ '/' :: rest.data) := by
  simp [String.data_append]

theorem getRequestPort_proxy_path (ds : List Char) (rest : String) (h1 : ds ≠ [])
    (h2 : ∀ c ∈ ds, isDigitChar c = true) :
    getRequestPort ("/_proxy/" ++ String.mk ds ++ "/" ++ rest) = digitsVal ds := by
  unfold getRequestPort
  rw [proxy_path_data, findProxyMatch_head ds rest.data h1 h2]
  simp

theorem rewriteUrl_proxy_path (ds : List Char) (rest : String) (h1 : ds ≠ [])
    (h2 : ∀ c ∈ ds, isDigitChar c = true) :
    rewriteUrl ("/_proxy/" ++ String.mk ds ++ "/" ++ rest) = rest := by
  unfold rewriteUrl
  rw [proxy_path_data, findProxyMatch_head ds rest.data h1 h2]
  rfl

end ReverseProxy

namespace Server

theorem handleRequest_cases (path : String) :
    handleRequest path = Outcome.jupyter ∨ handleRequest path = Outcome.notFound := by
  unfold handleRequest
  split <;> simp

theorem uncheckedRequestHandler_default (bridges : List String) (localPort : Nat)
    (path : String)
    (hb : bridges.any (fun p => SocketIoToPty.isPathProxied p path) = false)
    (hs : Sockets.isSocketIoPath path = false)
    (hp : ReverseProxy.getRequestPort path = 0 ∨
          ReverseProxy.getRequestPort path = localPort) :
    uncheckedRequestHandler bridges localPort path = handleRequest path := by
  unfold uncheckedRequestHandler
  rw [hb, hs]
  rcases hp with hp | hp <;> simp [hp]

end Server

/-- C1 (counterexample): the claim that every request left over for the
default dispatch path is forwarded to the UpstreamProcessSupervisor's proxy
is false: the path `/foo` is claimed by no bridge, is not the socket.io
prefix and carries no usable reverse-proxy port, yet the router answers
404 instead of handing the request to `jupyter.handleRequest`. -/
theorem router_unclaimed_path_404 :
    Server.uncheckedRequestHandler ["/tty"] 8081 "/foo" = Server.Outcome.notFound ∧
    Server.Outcome.notFound ≠ Server.Outcome.jupyter := by
  constructor
  · decide
  · decide

/-- C1 (amended): every inbound non-upgrade request whose path is claimed by
no registered session bridge, is not the socket.io multiplex prefix, and
carries no reverse-proxy port segment usable under the self-loop guard is
passed to the default handler, which forwards it to the
UpstreamProcessSupervisor's proxy exactly when the path starts with `/api`,
`/nbextensions`, `/files` or `/static`, and responds 404 otherwise. -/
theorem router_default_handler_dispatch (bridges : List String) (localPort : Nat)
    (path : String)
    (hb : bridges.any (fun p => SocketIoToPty.isPathProxied p path) = false)
    (hs : Sockets.isSocketIoPath path = false)
    (hp : ReverseProxy.getRequestPort path = 0 ∨
          ReverseProxy.getRequestPort path = localPort) :
    Server.uncheckedRequestHandler bridges localPort path = Server.handleRequest path ∧
    (Server.handleRequest path = Server.Outcome.jupyter ↔
      (jsStartsWith "/api" path || jsStartsWith "/nbextensions" path ||
        jsStartsWith "/files" path || jsStartsWith "/static" path) = true) ∧
    (Server.handleRequest path = Server.Outcome.jupyter ∨
      Server.handleRequest path = Server.Outcome.notFound) := by
  refine ⟨Server.uncheckedRequestHandler_default bridges localPort path hb hs hp, ?_,
    Server.handleRequest_cases path⟩
  unfold Server.handleRequest
  split <;> simp_all

/-- C1 (witness): the amended dispatch theorem applied to the request path
`/foo` on a server listening on port 8081 with the terminal bridge
registered. -/
theorem router_default_handler_dispatch_witness :
    Server.uncheckedRequestHandler ["/tty"] 8081 "/foo" = Server.handleRequest "/foo" :=
  (router_default_handler_dispatch ["/tty"] 8081 "/foo" (by decide) (by decide)
    (Or.inl (by decide))).1

/-- C2: for every path of the form `/_proxy/<n>/...` with `<n>` a digit
sequence, `getRequestPort` returns the denoted number and the URL rewrite
of `reverseProxy.handleRequest` deletes the matched `/_proxy/<n>/` marker;
in particular a request for `/_proxy/8080/foo` on a server listening on
8081 is dispatched to the reverse proxy for port 8080 with rewritten URL
`foo`, and the resulting upstream request URL is
`http://localhost:8080/foo`. -/
theorem reverse_proxy_forwarding (ds : List Char) (rest : String)
    (h1 : ds ≠ []) (h2 : ∀ c ∈ ds, ReverseProxy.isDigitChar c = true) :
    ReverseProxy.getRequestPort ("/_proxy/" ++ String.mk ds ++ "/" ++ rest) =
      ReverseProxy.digitsVal ds ∧
    ReverseProxy.rewriteUrl ("/_proxy/" ++ String.mk ds ++ "/" ++ rest) = rest ∧
    Server.uncheckedRequestHandler ["/tty"] 8081 "/_proxy/8080/foo" =
      Server.Outcome.reverseProxy 8080 "foo" ∧
    ReverseProxy.forwardedUrl "/_proxy/8080/foo" 8080 = "http://localhost:8080/foo" :=
  ⟨ReverseProxy.getRequestPort_proxy_path ds rest h1 h2,
   ReverseProxy.rewriteUrl_proxy_path ds rest h1 h2,
   by decide, by decide⟩

/-- C2 (witness): the forwarding theorem applied to the digit sequence
`8080` and the remainder `foo`. -/
theorem reverse_proxy_forwarding_witness :
    ReverseProxy.getRequestPort ("/_proxy/" ++ String.mk ['8', '0', '8', '0'] ++ "/" ++ "foo") =
      ReverseProxy.digitsVal ['8', '0', '8', '0'] :=
  (reverse_proxy_forwarding ['8', '0', '8', '0'] "foo" (by decide) (by decide)).1

/-- C3: whenever the reverse-proxy port extracted from the request path
equals the server's own listening port, the router does not dispatch to the
ReverseProxyDispatcher but falls through to the default handler. -/
theorem router_self_loop_guard (bridges : List String) (localPort : Nat)
    (path : String)
    (hb : bridges.any (fun p => SocketIoToPty.isPathProxied p path) = false)
    (hs : Sockets.isSocketIoPath path = false)
    (hp : ReverseProxy.getRequestPort path = localPort) :
    Server.uncheckedRequestHandler bridges localPort path = Server.handleRequest path ∧
    ∀ q u, Server.uncheckedRequestHandler bridges localPort path ≠
      Server.Outcome.reverseProxy q u := by
  have hdef := Server.uncheckedRequestHandler_default bridges localPort path hb hs
    (Or.inr hp)
  refine ⟨hdef, fun q u => ?_⟩
  rw [hdef]
  rcases Server.handleRequest_cases path with hc | hc <;> rw [hc] <;> simp

/-- C3 (witness): the self-loop guard theorem applied to the path
`/_proxy/8080/api/x` on a server listening on port 8080. -/
theorem router_self_loop_guard_witness :
    Server.uncheckedRequestHandler ["/tty"] 8080 "/_proxy/8080/api/x" =
      Server.handleRequest "/_proxy/8080/api/x" :=
  (router_self_loop_guard ["/tty"] 8080 "/_proxy/8080/api/x" (by decide) (by decide)
    (by decide)).1

/-- C10: for every path of the form `/_proxy/0/...`, `getRequestPort`
returns 0, which the router cannot distinguish from the absence of a
reverse-proxy segment: under either terminal-feature configuration and any
listening port the request is never dispatched to the
ReverseProxyDispatcher and always falls through to the default handler. -/
theorem proxy_port_zero_falls_through (rest : String) (terminal : Bool) (lp : Nat) :
    ReverseProxy.getRequestPort ("/_proxy/0/" ++ rest) = 0 ∧
    Server.uncheckedRequestHandler (Server.configuredBridges terminal) lp
      ("/_proxy/0/" ++ rest) = Server.handleRequest ("/_proxy/0/" ++ rest) ∧
    ∀ q u, Server.uncheckedRequestHandler (Server.configuredBridges terminal) lp
      ("/_proxy/0/" ++ rest) ≠ Server.Outcome.reverseProxy q u := by
  have hd : ("/_proxy/0/" ++ rest).data =
      '/' :: '_' :: 'p' :: 'r' :: 'o' :: 'x' :: 'y' :: '/' :: (['0'] ++ '/' :: rest.data) := by
    rw [String.data_append]
    rfl
  have hport : ReverseProxy.getRequestPort ("/_proxy/0/" ++ rest) = 0 := by
    unfold ReverseProxy.getRequestPort
    rw [hd, ReverseProxy.findProxyMatch_head ['0'] rest.data (by simp) (by decide)]
    simp [ReverseProxy.digitsVal]
  have hb : (Server.configuredBridges terminal).any
      (fun p => SocketIoToPty.isPathProxied p ("/_proxy/0/" ++ rest)) = false := by
    cases terminal <;> rfl
  have hs : Sockets.isSocketIoPath ("/_proxy/0/" ++ rest) = false := rfl
  have hdef := Server.uncheckedRequestHandler_default (Server.configuredBridges terminal)
    lp ("/_proxy/0/" ++ rest) hb hs (Or.inl hport)
  refine ⟨hport, hdef, fun q u => ?_⟩
  rw [hdef]
  rcases Server.handleRequest_cases ("/_proxy/0/" ++ rest) with hc | hc <;>
    rw [hc] <;> simp

namespace Pty

theorem flowStep_nonneg (s : FlowState) (e : FlowEvent) (h : 0 ≤ s.unackedCount) :
    0 ≤ (flowStep s e).unackedCount := by
  cases e with
  | output =>
    simp only [flowStep, onDataChunk]
    omega
  | ack =>
    simp only [flowStep, onAck]
    exact le_max_left 0 _

theorem foldl_flowStep_nonneg (es : List FlowEvent) (s : FlowState)
    (h : 0 ≤ s.unackedCount) : 0 ≤ (es.foldl flowStep s).unackedCount := by
  induction es generalizing s with
  | nil => exact h
  | cons e es ih => exact ih (flowStep s e) (flowStep_nonneg s e h)

end Pty

/-- C4: whenever the Supervisor holds no live ready backend record — in the
initial state before the TCP readiness probe has succeeded, or after the
child-process exit handler has run (also when it runs after a successful
probe) — `jupyter.handleRequest` responds 500 with an empty body, and it
forwards to the proxy in exactly the remaining (present) states. -/
theorem supervisor_unready_responds_500 :
    Jupyter.handleRequest Jupyter.initialJupyterServer =
      Jupyter.HandleOutcome.respond 500 "" ∧
    (∀ s, Jupyter.handleRequest (Jupyter.exitHandler s) =
      Jupyter.HandleOutcome.respond 500 "") ∧
    (∀ srv s, Jupyter.handleRequest (Jupyter.exitHandler (Jupyter.probeSuccess srv s)) =
      Jupyter.HandleOutcome.respond 500 "") ∧
    (∀ s, Jupyter.handleRequest s = Jupyter.HandleOutcome.respond 500 "" ↔ s = none) := by
  refine ⟨rfl, fun s => rfl, fun srv s => rfl, fun s => ?_⟩
  cases s <;> simp [Jupyter.handleRequest]

/-- C5: in every pty session, a process output chunk increments
`unackedCount` and pauses the producer exactly when the new count exceeds
the high watermark 20 (so the 21st unacknowledged chunk pauses, the 20th
does not); an acknowledgment sets the count to `max 0 (count - 1)` — hence
never negative, over every event history — and resumes the producer exactly
when the new count is below the low watermark 2. -/
theorem pty_backpressure_protocol :
    Pty.UNACKED_HIGH_WATER = 20 ∧ Pty.UNACKED_LOW_WATER = 2 ∧
    (∀ s, (Pty.onDataChunk s).1.unackedCount = s.unackedCount + 1) ∧
    (∀ s, (Pty.onDataChunk s).2 = [Pty.FlowAction.pause] ↔ s.unackedCount + 1 > 20) ∧
    (∀ s, (Pty.onAck s).1.unackedCount = max 0 (s.unackedCount - 1)) ∧
    (∀ s, 0 ≤ (Pty.onAck s).1.unackedCount) ∧
    (∀ s, (Pty.onAck s).2 = [Pty.FlowAction.resume] ↔ max 0 (s.unackedCount - 1) < 2) ∧
    (∀ es, 0 ≤ (Pty.runFlow es).unackedCount) ∧
    (Pty.onDataChunk (Pty.runFlow (List.replicate 20 Pty.FlowEvent.output))).2 =
      [Pty.FlowAction.pause] ∧
    (Pty.onDataChunk (Pty.runFlow (List.replicate 19 Pty.FlowEvent.output))).2 = [] := by
  refine ⟨rfl, rfl, fun s => rfl, fun s => ?_, fun s => rfl, fun s => ?_, fun s => ?_,
    fun es => Pty.foldl_flowStep_nonneg es ⟨0⟩ le_rfl, by decide, by decide⟩
  · simp only [Pty.onDataChunk, Pty.UNACKED_HIGH_WATER]
    split <;> simp_all
  · exact le_max_left 0 _
  · simp only [Pty.onAck, Pty.UNACKED_LOW_WATER]
    split <;> simp_all

/-- C6 (code bug): `jupyter.close` dereferences the module variable
`jupyterServer` before any check and outside its `try` block, so with no
registered process it throws a `TypeError` instead of completing with state
`absent`; with a registered process it swallows any kill failure and ends
with state `absent`, as the claim says. -/
theorem supervisor_close_null_throws :
    (∀ b, Jupyter.close b none =
      Jupyter.CloseResult.threw "TypeError: Cannot read property childProcess of null") ∧
    (∀ b srv, Jupyter.close b (some srv) = Jupyter.CloseResult.ok none) ∧
    (∀ b s, Jupyter.close b s = Jupyter.CloseResult.ok none ↔ s ≠ none) := by
  refine ⟨fun b => rfl, fun b srv => rfl, fun b s => ?_⟩
  cases s <;> simp [Jupyter.close]

/-- C7 (counterexample): a client `data` event whose payload fails JSON
parsing does not lead to a forced disconnect: the handler terminates by
propagating the parse exception, which is a different outcome from every
completed action list (in particular from a disconnect). -/
theorem pty_bad_json_counterexample :
    Pty.dataHandler (Except.error "SyntaxError: Unexpected token") =
      Pty.HandlerResult.thrown "SyntaxError: Unexpected token" ∧
    Pty.dataHandler (Except.error "SyntaxError: Unexpected token") ≠
      Pty.HandlerResult.actions [Pty.SessionIo.disconnect] := by
  exact ⟨rfl, by decide⟩

/-- C7 (amended): a client `data` event whose payload is not a valid JSON
envelope makes the pty session's `data` handler re-throw the parse error:
the exception propagates uncaught out of the session handler (there is no
`try`/`catch` in it), and the handler itself performs no forced disconnect
and no logging of the error. -/
theorem pty_bad_json_propagates (e : String) :
    Pty.dataHandler (Except.error e) = Pty.HandlerResult.thrown e ∧
    ∀ ios, Pty.dataHandler (Except.error e) ≠ Pty.HandlerResult.actions ios :=
  ⟨rfl, fun _ h => Pty.HandlerResult.noConfusion h⟩

/-- C8: in every kernel session, a client `data` message arriving after
`start` followed by `stop` (so with no upstream socket present) completes
without throwing, producing only the `Unable to send message` error log —
the message is dropped, nothing is sent upstream and nothing is emitted to
the client. -/
theorem kernel_data_after_stop_dropped (s : KernelBridge.Session) (u d : String) :
    KernelBridge.dataHandler (KernelBridge.stopHandler (KernelBridge.startHandler s u)) d =
      Except.ok [KernelBridge.SessionIo.logError
        "Unable to send message; WebSocket is not open"] ∧
    (KernelBridge.stopHandler (KernelBridge.startHandler s u)).webSocket = none :=
  ⟨rfl, rfl⟩

/-- C9 (counterexample): the line `ts|INFO|hello|world` splits into four
pipe-separated fields, so under the claim it should be logged verbatim as a
warning; the code instead truncates `split('|', 3)` to three fields and
logs it at the mapped level `info` with message `hello`. -/
theorem log_line_four_fields_counterexample :
    Jupyter.processLine "ts|INFO|hello|world" = some (Jupyter.PyLogLevel.info, "hello") ∧
    Jupyter.processLine "ts|INFO|hello|world" ≠
      some (Jupyter.PyLogLevel.warn, "ts|INFO|hello|world") := by
  exact ⟨by decide, by decide⟩

/-- C9 (amended): a non-blank line with at least two pipe separators is
logged at the level mapped from its second field, with the third field
alone as the message (any text beyond the third field is discarded); a
non-blank line with fewer than two pipe separators is logged verbatim as a
warning; and the level mapping sends CRITICAL and ERROR to error, WARNING
to warn, INFO to info, and DEBUG, NOTSET or any unknown level to debug. -/
theorem log_line_level_mapping (line : String) (h : Jupyter.isBlankLine line = false) :
    (3 ≤ (Jupyter.splitPipe line).length →
      Jupyter.processLine line =
        some (Jupyter.mapPyLevel ((Jupyter.splitPipe line).getD 1 ""),
          (Jupyter.splitPipe line).getD 2 "")) ∧
    ((Jupyter.splitPipe line).length < 3 →
      Jupyter.processLine line = some (Jupyter.PyLogLevel.warn, line)) ∧
    Jupyter.mapPyLevel "CRITICAL" = Jupyter.PyLogLevel.error ∧
    Jupyter.mapPyLevel "ERROR" = Jupyter.PyLogLevel.error ∧
    Jupyter.mapPyLevel "WARNING" = Jupyter.PyLogLevel.warn ∧
    Jupyter.mapPyLevel "INFO" = Jupyter.PyLogLevel.info ∧
    Jupyter.mapPyLevel "DEBUG" = Jupyter.PyLogLevel.debug ∧
    Jupyter.mapPyLevel "NOTSET" = Jupyter.PyLogLevel.debug ∧
    (∀ level, level ≠ "CRITICAL" → level ≠ "ERROR" → level ≠ "WARNING" →
      level ≠ "INFO" → Jupyter.mapPyLevel level = Jupyter.PyLogLevel.debug) := by
  refine ⟨?_, ?_, rfl, rfl, rfl, rfl, rfl, rfl, ?_⟩
  · intro hlen
    rcases hsp : Jupyter.splitPipe line with _ | ⟨a, _ | ⟨b, _ | ⟨c, rest⟩⟩⟩ <;>
      rw [hsp] at hlen <;> simp at hlen
    all_goals simp [Jupyter.processLine, h, hsp]
  · intro hlen
    have htake : (Jupyter.splitPipe line).take 3 = Jupyter.splitPipe line :=
      List.take_of_length_le (by omega)
    simp [Jupyter.processLine, h, htake]
    omega
  · intro level h1 h2 h3 h4
    simp [Jupyter.mapPyLevel, h1, h2, h3, h4]

/-- C9 (witness): the amended logging theorem applied to the three-field
line `ts|INFO|hello`. -/
theorem log_line_level_mapping_witness :
    Jupyter.processLine "ts|INFO|hello" =
      some (Jupyter.mapPyLevel ((Jupyter.splitPipe "ts|INFO|hello").getD 1 ""),
        (Jupyter.splitPipe "ts|INFO|hello").getD 2 "") :=
  (log_line_level_mapping "ts|INFO|hello" (by decide)).1 (by decide)

/-- C10 (witness): the port-zero theorem applied to `/_proxy/0/bar` with the
terminal bridge enabled on listening port 8081. -/
theorem proxy_port_zero_falls_through_witness :
    ReverseProxy.getRequestPort ("/_proxy/0/" ++ "bar") = 0 :=
  (proxy_port_zero_falls_through "bar" true 8081).1

/-- C7 (witness for the amended theorem): the propagation theorem applied to
a concrete `SyntaxError` message. -/
theorem pty_bad_json_propagates_witness :
    Pty.dataHandler (Except.error "SyntaxError: Unexpected end of JSON input") =
      Pty.HandlerResult.thrown "SyntaxError: Unexpected end of JSON input" :=
  (pty_bad_json_propagates "SyntaxError: Unexpected end of JSON input").1

/-- C8 (witness): the drop theorem applied to a fresh session started at
`ws://x` and then stopped, receiving the payload `{}`. -/
theorem kernel_data_after_stop_dropped_witness :
    KernelBridge.dataHandler
      (KernelBridge.stopHandler
        (KernelBridge.startHandler { url := "", webSocket := none } "ws://x")) "\x7b\x7d" =
      Except.ok [KernelBridge.SessionIo.logError
        "Unable to send message; WebSocket is not open"] :=
  (kernel_data_after_stop_dropped { url := "", webSocket := none } "ws://x" "\x7b\x7d").1
